import Mathlib

/-!
A verification development for the `tweetstream` repository, a tornado-based
streaming HTTP client (`src/tweetstream.py`).  The Python class `TweetStream`
is embedded shallowly: its mutable instance attributes become the fields of
`TS.TweetState`, each callback method becomes a pure function from the state
(plus the callback's arguments and the current wall-clock time) to a new
state together with a list of externally visible effects, and a Python
exception that escapes a callback becomes the `error` branch of `Except`.
Times and delays are integers counting quarter-seconds (`sec n` is `n`
seconds), the exact grid of every duration the source uses — its only
non-integral constant is the 0.25 s pre-established delay step — so that
all time arithmetic is decidable by computation.  External library calls that the code depends on
(`json.loads`, `int(s, 16)`, `str.strip`, `str.splitlines`, ...) are modelled
by executable Lean functions over `List Char`, faithful to the Python
semantics on the inputs the program meets (the model restrictions are noted
at each definition).
-/

namespace TS

/-- Python strings are modelled as lists of characters. -/
abbrev Str : Type := List Char

/-- Conversion from a Lean string literal to the model's string type. -/
def pys (s : String) : Str := s.data

/-- The length of a modelled string. -/
def strLen (s : Str) : Nat := List.length s

/-- Python `str.isspace` set for the default `str.strip` / `str.split`:
space, tab, newline, carriage return, vertical tab, form feed. -/
def pyIsSpace (c : Char) : Bool :=
  c = ' ' || c = '\t' || c = '\n' || c = '\r' || c = '\x0b' || c = '\x0c'

/-- Python `str.strip()` with no argument: drop whitespace on both ends. -/
def pyStrip (s : Str) : Str :=
  ((List.dropWhile pyIsSpace s).reverse.dropWhile pyIsSpace).reverse

/-- Helper for `pySplitWs`: accumulate the current word (reversed). -/
def splitWsAux : List Char → List Char → List Str
  | [], acc => if acc.isEmpty then [] else [acc.reverse]
  | c :: rest, acc =>
    if pyIsSpace c then
      if acc.isEmpty then splitWsAux rest [] else acc.reverse :: splitWsAux rest []
    else splitWsAux rest (c :: acc)

/-- Python `str.split()` with no argument: split on whitespace runs, dropping
empty words. -/
def pySplitWs (s : Str) : List Str := splitWsAux s []

/-- Helper for `splitOnSeq`, fuelled by the input length. -/
def splitOnSeqAux (sep : Str) : Nat → List Char → List Char → List Str
  | 0, s, acc => [acc.reverse ++ s]
  | fuel + 1, s, acc =>
    match s with
    | [] => [acc.reverse]
    | c :: rest =>
      if List.take (strLen sep) s = sep then
        acc.reverse :: splitOnSeqAux sep fuel (List.drop (strLen sep) s) []
      else
        splitOnSeqAux sep fuel rest (c :: acc)

/-- Python `str.split(sep)` for a nonempty separator `sep` (the program only
splits on nonempty separators): empty pieces are kept. -/
def splitOnSeq (sep s : Str) : List Str := splitOnSeqAux sep (strLen s + 1) s []

/-- Helper for `replaceSeq`, fuelled by the input length. -/
def replaceSeqAux (pat rep : Str) : Nat → List Char → List Char
  | 0, s => s
  | fuel + 1, s =>
    match s with
    | [] => []
    | c :: rest =>
      if List.take (strLen pat) s = pat then
        rep ++ replaceSeqAux pat rep fuel (List.drop (strLen pat) s)
      else
        c :: replaceSeqAux pat rep fuel rest

/-- Python `str.replace(pat, rep)` for a nonempty pattern (the program only
replaces the nonempty pattern `"HTTP/1.1"`). -/
def replaceSeq (pat rep s : Str) : Str := replaceSeqAux pat rep (strLen s + 1) s

/-- Python `str.splitlines()`, restricted to the CRLF line terminator: the
HTTP responses the program splits use `\r\n` exclusively.  Like Python, a
trailing terminator produces no final empty line. -/
def pySplitlines (s : Str) : List Str :=
  let parts := splitOnSeq (pys "\r\n") s
  match parts.getLast? with
  | some [] => parts.dropLast
  | _ => parts

/-- The value of a decimal digit character. -/
def digitVal? (c : Char) : Option Nat :=
  if '0' ≤ c ∧ c ≤ '9' then some (c.toNat - '0'.toNat) else none

/-- The value of a base-16 digit character. -/
def hexVal? (c : Char) : Option Nat :=
  if '0' ≤ c ∧ c ≤ '9' then some (c.toNat - '0'.toNat)
  else if 'a' ≤ c ∧ c ≤ 'f' then some (c.toNat - 'a'.toNat + 10)
  else if 'A' ≤ c ∧ c ≤ 'F' then some (c.toNat - 'A'.toNat + 10)
  else none

/-- Helper: read digits under `f`, accumulating in base `base`. -/
def digitsValAux (f : Char → Option Nat) (base : Nat) : List Char → Nat → Option Nat
  | [], acc => some acc
  | c :: rest, acc =>
    match f c with
    | some d => digitsValAux f base rest (acc * base + d)
    | none => none

/-- A nonempty all-digit string's value, else `none`. -/
def digitsVal (f : Char → Option Nat) (base : Nat) : Str → Option Nat
  | [] => none
  | s => digitsValAux f base s 0

/-- Python `int(s)` (base 10): strip whitespace, optional sign, at least one
decimal digit.  Model restriction: the underscore digit separator is not
modelled (the program never receives one). -/
def int_base10 (s : Str) : Option Int :=
  match pyStrip s with
  | '-' :: rest => (digitsVal digitVal? 10 rest).map (fun n => -(n : Int))
  | '+' :: rest => (digitsVal digitVal? 10 rest).map (fun n => (n : Int))
  | t => (digitsVal digitVal? 10 t).map (fun n => (n : Int))

/-- Helper for `int_base16`: hex digits with an optional `0x` / `0X` prefix. -/
def hexDigits (s : Str) : Option Nat :=
  match s with
  | '0' :: x :: rest =>
    if x = 'x' ∨ x = 'X' then digitsVal hexVal? 16 rest
    else digitsVal hexVal? 16 ('0' :: x :: rest)
  | t => digitsVal hexVal? 16 t

/-- Python `int(s, 16)`: strip whitespace, optional sign, optional `0x`
prefix, at least one base-16 digit.  Model restriction: the underscore digit
separator is not modelled. -/
def int_base16 (s : Str) : Option Int :=
  match pyStrip s with
  | '-' :: rest => (hexDigits rest).map (fun n => -(n : Int))
  | '+' :: rest => (hexDigits rest).map (fun n => (n : Int))
  | t => (hexDigits t).map (fun n => (n : Int))

/-- A JSON value as `json.loads` produces it; numbers are kept exactly as
rationals. -/
inductive JsonVal where
  | null : JsonVal
  | bool (b : Bool) : JsonVal
  | num (q : ℚ) : JsonVal
  | str (s : Str) : JsonVal
  | arr (elems : List JsonVal) : JsonVal
  | obj (fields : List (Str × JsonVal)) : JsonVal

/-- The left brace character, written by code point to keep braces out of
string and character literals. -/
def lbrace : Char := Char.ofNat 123

/-- The right brace character. -/
def rbrace : Char := Char.ofNat 125

/-- JSON whitespace (as in RFC 8259 and Python's `json` module). -/
def jsonWsChar (c : Char) : Bool :=
  c = ' ' || c = '\t' || c = '\n' || c = '\r'

/-- Skip JSON whitespace. -/
def skipWs (s : Str) : Str := List.dropWhile jsonWsChar s

/-- A JSON string escape (`\uXXXX` escapes are not modelled: the program's
witnesses never use them). -/
def escChar (c : Char) : Option Char :=
  if c = '"' ∨ c = '\\' ∨ c = '/' then some c
  else if c = 'b' then some (Char.ofNat 8)
  else if c = 'f' then some (Char.ofNat 12)
  else if c = 'n' then some '\n'
  else if c = 'r' then some '\r'
  else if c = 't' then some '\t'
  else none

/-- Parse the body of a JSON string after the opening quote; returns the
content and the remainder after the closing quote. -/
def parseStringBody : List Char → Option (Str × Str)
  | [] => none
  | '"' :: rest => some ([], rest)
  | '\\' :: e :: rest => do
    let c ← escChar e
    let (cs, r) ← parseStringBody rest
    some (c :: cs, r)
  | c :: rest => do
    let (cs, r) ← parseStringBody rest
    some ((c :: cs : List Char), r)

/-- Take the longest digit run from the front. -/
def spanDigits : List Char → Str × Str
  | [] => ([], [])
  | c :: rest =>
    if (digitVal? c).isSome then
      let (ds, r) := spanDigits rest
      (c :: ds, r)
    else ([], c :: rest)

/-- The value of a digit run. -/
def digitsToNat (ds : Str) : Nat :=
  List.foldl (fun acc c => acc * 10 + (c.toNat - '0'.toNat)) 0 ds

/-- The optional fraction part of a JSON number (a dot followed by at least
one digit; otherwise the dot is not consumed, as in the JSON grammar). -/
def parseFracPart (i : Nat) : List Char → ℚ × Str
  | '.' :: rest =>
    match spanDigits rest with
    | ([], _) => ((i : ℚ), '.' :: rest)
    | (ds, r2) => ((i : ℚ) + (digitsToNat ds : ℚ) / 10 ^ strLen ds, r2)
  | s => ((i : ℚ), s)

/-- The optional exponent part of a JSON number. -/
def parseExpPart (q : ℚ) (s : List Char) : ℚ × Str :=
  match s with
  | c :: rest =>
    if c = 'e' ∨ c = 'E' then
      let (eneg, r1) : Bool × List Char :=
        match rest with
        | '-' :: r => (true, r)
        | '+' :: r => (false, r)
        | _ => (false, rest)
      match spanDigits r1 with
      | ([], _) => (q, s)
      | (ds, r2) =>
        (if eneg then q / 10 ^ digitsToNat ds else q * 10 ^ digitsToNat ds, r2)
    else (q, s)
  | [] => (q, [])

/-- A JSON number: optional minus, integer part (`0` or a nonzero-led digit
run, as in the JSON grammar), optional fraction, optional exponent. -/
def parseNumber (s : List Char) : Option (ℚ × Str) :=
  let (neg, s1) : Bool × List Char :=
    match s with
    | '-' :: rest => (true, rest)
    | _ => (false, s)
  let core : Option (Nat × Str) :=
    match s1 with
    | '0' :: rest => some (0, rest)
    | t =>
      match spanDigits t with
      | ([], _) => none
      | (ds, rest) => some (digitsToNat ds, rest)
  core.map fun p =>
    let (q1, r1) := parseFracPart p.1 p.2
    let (q2, r2) := parseExpPart q1 r1
    (if neg then -q2 else q2, r2)

mutual

/-- A JSON value, fuelled (the fuel passed by `json_loads` always suffices). -/
def parseVal : Nat → List Char → Option (JsonVal × Str)
  | 0, _ => none
  | fuel + 1, s =>
    match s with
    | [] => none
    | 'n' :: rest =>
      if List.take 3 rest = pys "ull" then some (JsonVal.null, List.drop 3 rest) else none
    | 't' :: rest =>
      if List.take 3 rest = pys "rue" then some (JsonVal.bool true, List.drop 3 rest) else none
    | 'f' :: rest =>
      if List.take 4 rest = pys "alse" then some (JsonVal.bool false, List.drop 4 rest) else none
    | '"' :: rest => (parseStringBody rest).map fun p => (JsonVal.str p.1, p.2)
    | '[' :: rest =>
      match skipWs rest with
      | ']' :: rest2 => some (JsonVal.arr [], rest2)
      | r => (parseArrayItems fuel r).map fun p => (JsonVal.arr p.1, p.2)
    | c :: rest =>
      if c = lbrace then
        match skipWs rest with
        | b :: rest2 =>
          if b = rbrace then some (JsonVal.obj [], rest2)
          else (parseObjItems fuel (b :: rest2)).map fun p => (JsonVal.obj p.1, p.2)
        | [] => none
      else (parseNumber (c :: rest)).map fun p => (JsonVal.num p.1, p.2)

/-- One or more comma-separated array items up to the closing bracket. -/
def parseArrayItems : Nat → List Char → Option (List JsonVal × Str)
  | 0, _ => none
  | fuel + 1, s => do
    let (v, rest) ← parseVal fuel s
    match skipWs rest with
    | ',' :: rest2 => do
      let (vs, rest3) ← parseArrayItems fuel (skipWs rest2)
      some ((v :: vs : List JsonVal), rest3)
    | ']' :: rest2 => some ([v], rest2)
    | _ => none

/-- One or more comma-separated object members up to the closing brace. -/
def parseObjItems : Nat → List Char → Option (List (Str × JsonVal) × Str)
  | 0, _ => none
  | fuel + 1, s =>
    match s with
    | '"' :: rest => do
      let (k, rest1) ← parseStringBody rest
      match skipWs rest1 with
      | ':' :: rest2 => do
        let (v, rest3) ← parseVal fuel (skipWs rest2)
        match skipWs rest3 with
        | ',' :: rest4 => do
          let (kvs, rest5) ← parseObjItems fuel (skipWs rest4)
          some (((k, v) :: kvs : List (Str × JsonVal)), rest5)
        | c :: rest4 => if c = rbrace then some ([(k, v)], rest4) else none
        | [] => none
      | _ => none
    | _ => none

end

/-- Python `json.loads`: parse one JSON document and require that nothing but
whitespace follows, else fail (Python raises `ValueError` / `JSONDecodeError`
in exactly those cases).  Model restrictions: `\uXXXX` string escapes and the
non-standard `NaN` / `Infinity` literals are not modelled. -/
def json_loads (s : Str) : Option JsonVal :=
  match parseVal (2 * strLen s + 8) (skipWs s) with
  | some (v, rest) => if skipWs rest = ([] : List Char) then some v else none
  | none => none

/-- `n` seconds on the quarter-second grid all the source's durations live
on (`0.25 s` is `1`). -/
def sec (n : ℤ) : ℤ := 4 * n

/-!
The `TweetStream` instance state (`src/tweetstream.py`, `__init__`).  Python
attributes map to fields one for one; the three callback attributes are
modelled by booleans recording whether a callback is registered (their code
is the caller's), the tornado `IOStream` object by an identity token
(`str(self._twitter_stream)` is what the code itself uses as the token) plus
a closed flag, and `datetime` / timeout handles by rational absolute times.
`pending_stall_deadlines` mirrors the io-loop's registry of timeouts whose
callback is `stall_callback`, so that "at most one pending stall deadline"
is a provable statement rather than a typing accident.
-/
structure TweetState where
  has_callback : Bool
  has_error_callback : Bool
  has_rate_limited_callback : Bool
  clean_message : Bool
  retry_delay : ℤ
  retry_rate_limited_delay : ℤ
  retry_before_established_delay : ℤ
  stream_restart_scheduled : Bool
  stream_restart_in_process : Bool
  stream_restart_time : Option ℤ
  timeout_handle : Option ℤ
  stall_timeout_handle : Option ℤ
  pending_stall_deadlines : List ℤ
  twitter_stream : Option Nat
  stream_closed : Bool
  current_iostream : Nat
  partial_tweet : Str
  deriving DecidableEq

/-- The continuation a `read_bytes` call registers. -/
inductive Cont where
  | payload (id : Nat) : Cont
  | errorBody (exc : Str) : Cont
  deriving DecidableEq

/-- Externally visible actions of a callback: I/O requests on the transport
and invocations of the user's callbacks. -/
inductive Effect where
  | openStream (id : Nat) : Effect
  | writeRequest (id : Nat) : Effect
  | readUntilHeaders (id : Nat) : Effect
  | readLine (id : Nat) : Effect
  | readBytes (n : Int) (k : Cont) : Effect
  | rateLimitedCb : Effect
  | errorCb (e : Str) : Effect
  | messageCb (v : JsonVal) : Effect

/-- Is the effect a delivery of a message to the user's callback? -/
def effIsMessage : Effect → Bool
  | Effect.messageCb _ => true
  | _ => false

/-- The state component of a callback result, with a fallback for the
exception branch. -/
def state_of (r : Except Str (TweetState × List Effect)) (dflt : TweetState) : TweetState :=
  match r with
  | Except.ok p => p.1
  | Except.error _ => dflt

/-- The effect-list component of a callback result. -/
def effects_of (r : Except Str (TweetState × List Effect)) : List Effect :=
  match r with
  | Except.ok p => p.2
  | Except.error _ => []

/-!  Configuration and construction (`__init__` / `_get_configuration_key`). -/

/-- The configuration dictionary, restricted to the keys the constructor
reads.  `none` stands for an absent key (or a key stored as Python `None`,
which `_get_configuration_key` treats identically). -/
structure Configuration where
  twitter_consumer_key : Option Str
  twitter_consumer_secret : Option Str
  twitter_access_token : Option Str
  twitter_access_token_secret : Option Str
  twitter_stream_host : Option Str
  twitter_stream_scheme : Option Str
  twitter_stream_port : Option Nat
  deriving DecidableEq

/-- `_get_configuration_key`: the configured value, else the default, else
raise `MissingConfiguration`. -/
def get_configuration_key {α : Type} (configured dflt : Option α) : Except Str α :=
  match configured with
  | some v => Except.ok v
  | none =>
    match dflt with
    | some v => Except.ok v
    | none => Except.error (pys "MissingConfiguration")

/-- `TweetStream.__init__`: read the four credentials (no default — absent
raises) and the three endpoint settings (with defaults), then initialise
every instance attribute.  The oauthlib client construction (`set_token`) is
external and raises nothing.  `stream_closed` is `true` initially since no
transport exists yet. -/
def TweetStream_init (c : Configuration) (clean : Bool) : Except Str TweetState :=
  match get_configuration_key c.twitter_consumer_key none with
  | Except.error e => Except.error e
  | Except.ok _ =>
  match get_configuration_key c.twitter_consumer_secret none with
  | Except.error e => Except.error e
  | Except.ok _ =>
  match get_configuration_key c.twitter_access_token none with
  | Except.error e => Except.error e
  | Except.ok _ =>
  match get_configuration_key c.twitter_access_token_secret none with
  | Except.error e => Except.error e
  | Except.ok _ =>
  match get_configuration_key c.twitter_stream_host (some (pys "stream.twitter.com")) with
  | Except.error e => Except.error e
  | Except.ok _ =>
  match get_configuration_key c.twitter_stream_scheme (some (pys "https")) with
  | Except.error e => Except.error e
  | Except.ok _ =>
  match get_configuration_key c.twitter_stream_port (some 443) with
  | Except.error e => Except.error e
  | Except.ok _ =>
  Except.ok
    { has_callback := false
      has_error_callback := false
      has_rate_limited_callback := false
      clean_message := clean
      retry_delay := sec 5
      retry_rate_limited_delay := sec 60
      retry_before_established_delay := 1
      stream_restart_scheduled := false
      stream_restart_in_process := false
      stream_restart_time := none
      timeout_handle := none
      stall_timeout_handle := none
      pending_stall_deadlines := []
      twitter_stream := none
      stream_closed := true
      current_iostream := 0
      partial_tweet := [] }

/-!  Timers (`add_timeout` / `remove_timeout` / the stall pair). -/

/-- `remove_timeout`: cancel the pending restart timer, if any. -/
def remove_timeout (s : TweetState) : TweetState :=
  match s.timeout_handle with
  | some _ => { s with timeout_handle := none }
  | none => s

/-- `add_timeout`: cancel any pending restart timer, then schedule the
callback at `now + seconds`. -/
def add_timeout (s : TweetState) (now seconds : ℤ) : TweetState :=
  let s := remove_timeout s
  { s with timeout_handle := some (now + seconds) }

/-- `remove_stall_timeout`: cancel the pending stall deadline, if any. -/
def remove_stall_timeout (s : TweetState) : TweetState :=
  match s.stall_timeout_handle with
  | some h =>
    { s with stall_timeout_handle := none
             pending_stall_deadlines := s.pending_stall_deadlines.erase h }
  | none => s

/-- `set_stall_timeout`: cancel any pending stall deadline, then schedule
`stall_callback` at `now + 90` (the code passes `timedelta(seconds=90)`). -/
def set_stall_timeout (s : TweetState) (now : ℤ) : TweetState :=
  let s := remove_stall_timeout s
  { s with stall_timeout_handle := some (now + sec 90)
           pending_stall_deadlines := s.pending_stall_deadlines ++ [now + sec 90] }

/-!  Closing (`close_helper` / `close`). -/

/-- `close_helper`: cancel both timers and close the transport.  Note that
`self._partial_tweet` is not touched. -/
def close_helper (s : TweetState) : TweetState :=
  let s := remove_timeout s
  let s := remove_stall_timeout s
  { s with stream_closed := true }

/-- `close`: if a transport object exists, neutralise its close callback
(external to the state) and run `close_helper`. -/
def close (s : TweetState) : TweetState :=
  match s.twitter_stream with
  | some _ => close_helper s
  | none => s

/-!  The reconnect machinery (`open_twitter_stream` / `schedule_restart`). -/

/-- `open_twitter_stream`: clear the scheduled flag; if the previous attempt
started less than 5 seconds ago, defer by a fixed 5 seconds (the body of
`schedule_restart(5)` is inlined here: with `seconds = 5` it always takes the
`add_timeout` branch, never recursing back); otherwise record the start time,
close any previous transport and open a new one whose identity token is
`newId`, which becomes `self._current_iostream`. -/
def open_twitter_stream (s : TweetState) (now : ℤ) (newId : Nat) : TweetState × List Effect :=
  let s := { s with stream_restart_scheduled := false }
  let flap_guard : Bool :=
    match s.stream_restart_time with
    | some t => decide (now - t < sec 5)
    | none => false
  if flap_guard then
    if s.stream_restart_scheduled = false ∧ s.stream_restart_in_process = false then
      (add_timeout { s with stream_restart_scheduled := true } now (sec 5), [])
    else (s, [])
  else
    let s := { s with stream_restart_time := some now, stream_restart_in_process := true }
    let s :=
      match s.twitter_stream with
      | some _ => close s
      | none => s
    ({ s with twitter_stream := some newId
              stream_closed := false
              current_iostream := newId },
     [Effect.openStream newId])

/-- `schedule_restart`: coalesce if a restart is already scheduled or in
process; otherwise mark scheduled and either open immediately (`seconds = 0`)
or arm the restart timer. -/
def schedule_restart (s : TweetState) (now : ℤ) (newId : Nat) (seconds : ℤ) :
    TweetState × List Effect :=
  if s.stream_restart_scheduled = false ∧ s.stream_restart_in_process = false then
    let s := { s with stream_restart_scheduled := true }
    if seconds = 0 then open_twitter_stream s now newId
    else (add_timeout s now seconds, [])
  else (s, [])

/-!  Backoff counter updates, named after the three tiers; each is the exact
update statement of the corresponding failure branch in the source. -/

/-- `if self._retry_delay < 320: self._retry_delay *= 2` (in `on_headers`). -/
def errorDelayStep (d : ℤ) : ℤ := if d < sec 320 then d * 2 else d

/-- `self._retry_rate_limited_delay *= 2` (in `on_headers`; no cap). -/
def rateLimitDelayStep (d : ℤ) : ℤ := d * 2

/-- `if self._retry_before_established_delay < 16: ... += .25`
(in `close_before_established_callback`). -/
def preEstablishedDelayStep (d : ℤ) : ℤ := if d < sec 16 then d + 1 else d

/-!  The close / stall callbacks.  None of them takes an attempt identity. -/

/-- `close_before_established_callback`: close, clear the in-process flag,
schedule a retry after the pre-established delay, then step the counter. -/
def close_before_established_callback (s : TweetState) (now : ℤ) (newId : Nat) :
    TweetState × List Effect :=
  let s := close s
  let s := { s with stream_restart_in_process := false }
  let (s, effs) := schedule_restart s now newId s.retry_before_established_delay
  ({ s with retry_before_established_delay :=
       preEstablishedDelayStep s.retry_before_established_delay },
   effs)

/-- `close_callback` (the close callback while streaming): `close_helper`
then `schedule_restart()` with the default `seconds = 0`. -/
def close_callback (s : TweetState) (now : ℤ) (newId : Nat) : TweetState × List Effect :=
  let s := close_helper s
  schedule_restart s now newId 0

/-- `stall_callback`: close the stream and restart immediately. -/
def stall_callback (s : TweetState) (now : ℤ) (newId : Nat) : TweetState × List Effect :=
  let s := close s
  schedule_restart s now newId 0

/-!  The error reporting path (`on_error` / `get_error_body`). -/

/-- `on_error`: pass the error to the registered error callback, else
re-raise it. -/
def on_error (s : TweetState) (e : Str) : Except Str (List Effect) :=
  if s.has_error_callback then Except.ok [Effect.errorCb e] else Except.error e

/-- The closure `get_error_body` defined inside `on_headers`: report
`"%s\n%s" % (exception_string, content)` through `on_error`.  It captures no
attempt identity and performs no staleness check. -/
def get_error_body (s : TweetState) (exc : Str) (content : Str) : Except Str (List Effect) :=
  on_error s (exc ++ [Char.ofNat 10] ++ content)

/-!  The HTTP response header parsing done inline in `on_headers`. -/

/-- `response.splitlines()[0]`, with the empty default folded into the later
index error (an empty response raises either way). -/
def status_line_of (resp : Str) : Str := (pySplitlines resp).headD []

/-- The status code extraction of `on_headers`:
`int(status_line.replace("HTTP/1.1", "").split()[0].strip())`.  An empty word
list raises `IndexError`, an unparsable word raises `ValueError`; both are
uncaught in the source, hence the `Except`. -/
def response_code_of (resp : Str) : Except Str Int :=
  match pySplitWs (replaceSeq (pys "HTTP/1.1") [] (status_line_of resp)) with
  | [] => Except.error (pys "IndexError")
  | w :: _ =>
    match int_base10 (pyStrip w) with
    | some c => Except.ok c
    | none => Except.error (pys "ValueError")

/-- The header dictionary of `on_headers`: for each line after the first,
the key is the part before the first colon lowercased, the value the re-join
of the rest.  Python dict comprehension semantics: a repeated key keeps the
last value, which `dictGet` implements by searching the reversed list. -/
def headers_of (ls : List Str) : List (Str × Str) :=
  ls.map fun l =>
    let parts := splitOnSeq (pys ":") l
    ((parts.headD []).map Char.toLower, List.intercalate (pys ":") parts.tail)

/-- `headers.get(key)` with the last bound value winning. -/
def dictGet (kvs : List (Str × Str)) (k : Str) : Option Str :=
  (kvs.reverse.find? fun p => p.1 = k).map fun p => p.2

/-- `int(headers.get("content-length") or 0)`: an absent or empty value is 0;
a present nonempty value is parsed by `int` (base 10), whose failure is an
uncaught `ValueError`. -/
def content_length_of (resp : Str) : Except Str Int :=
  match dictGet (headers_of (pySplitlines resp).tail) (pys "content-length") with
  | none => Except.ok 0
  | some v =>
    if v = ([] : List Char) then Except.ok 0
    else
      match int_base10 v with
      | some n => Except.ok n
      | none => Except.error (pys "ValueError")

/-- The `exception_string` of `on_headers`:
`"Could not connect: %s\n%s" % (status_line, response)`. -/
def exc_string (resp : Str) : Str :=
  pys "Could not connect: " ++ status_line_of resp ++ [Char.ofNat 10] ++ resp

/-!  The streaming callbacks.  Each one that the source guards with
`if id != self._current_iostream: return` takes the identity token `id` it
was registered with and begins with that check. -/

/-- `on_connect`: staleness check, then sign and write the request (the
oauthlib signing is external and deterministic; the write is the effect) and
read up to the blank line ending the headers. -/
def on_connect (s : TweetState) (id : Nat) : TweetState × List Effect :=
  if id ≠ s.current_iostream then (s, [])
  else (s, [Effect.writeRequest id, Effect.readUntilHeaders id])

/-- `wait_for_message`: if the current transport is closed, log and stop;
otherwise request a read up to the next `\r\n`. -/
def wait_for_message (s : TweetState) (id : Nat) : TweetState × List Effect :=
  if s.stream_closed then (s, [])
  else (s, [Effect.readLine id])

/-- The tail of `parse_response`: deliver the message to the user's callback
if one is registered, then wait for the next frame. -/
def emit_and_wait (s : TweetState) (v : JsonVal) (id : Nat) : TweetState × List Effect :=
  let effs := if s.has_callback then [Effect.messageCb v] else []
  let (s, w) := wait_for_message s id
  (s, effs ++ w)

/-- Python `response["key"]` on a parsed JSON object (a repeated key keeps
the last value, as in the dict `json.loads` builds). -/
def objGet (v : JsonVal) (k : Str) : Option JsonVal :=
  match v with
  | JsonVal.obj kvs => (kvs.reverse.find? fun p => p.1 = k).map fun p => p.2
  | _ => none

/-- `parse_response`: in clean mode project the tweet fields — a missing key
is a caught `KeyError` (log and read on), while indexing a non-dict raises an
uncaught `TypeError`; otherwise deliver the message as parsed. -/
def parse_response (s : TweetState) (now : ℤ) (v : JsonVal) (id : Nat) :
    Except Str (TweetState × List Effect) :=
  if s.clean_message then
    match v with
    | JsonVal.obj _ =>
      match objGet v (pys "text") with
      | none => Except.ok (wait_for_message s id)
      | some text =>
        match objGet v (pys "user") with
        | none => Except.ok (wait_for_message s id)
        | some user =>
          match user with
          | JsonVal.obj _ =>
            match objGet user (pys "name") with
            | none => Except.ok (wait_for_message s id)
            | some name =>
              match objGet user (pys "screen_name") with
              | none => Except.ok (wait_for_message s id)
              | some username =>
                match objGet user (pys "profile_image_url_https") with
                | none => Except.ok (wait_for_message s id)
                | some avatar =>
                  let cleaned := JsonVal.obj
                    [ (pys "type", JsonVal.str (pys "tweet"))
                    , (pys "text", text)
                    , (pys "avatar", avatar)
                    , (pys "name", name)
                    , (pys "username", username)
                    , (pys "time", JsonVal.num ((now / 4 : ℤ) : ℚ)) ]
                  Except.ok (emit_and_wait s cleaned id)
          | _ => Except.error (pys "TypeError")
    | _ => Except.error (pys "TypeError")
  else Except.ok (emit_and_wait s v id)

/-- `parse_json`: staleness check; rearm the stall deadline; skip a
whitespace-only keep-alive; try the payload alone, on failure append it to
`self._partial_tweet` and retry the accumulated buffer; a successful parse
clears the buffer and the value is delivered via `parse_response`. -/
def parse_json (s : TweetState) (now : ℤ) (response : Str) (id : Nat) :
    Except Str (TweetState × List Effect) :=
  if id ≠ s.current_iostream then Except.ok (s, [])
  else
    let s := set_stall_timeout s now
    if pyStrip response = ([] : List Char) then Except.ok (wait_for_message s id)
    else
      match json_loads response with
      | some v => parse_response { s with partial_tweet := [] } now v id
      | none =>
        let s := { s with partial_tweet := s.partial_tweet ++ response }
        match json_loads s.partial_tweet with
        | some v => parse_response { s with partial_tweet := [] } now v id
        | none => Except.ok (wait_for_message s id)

/-- `on_result`: staleness check; a blank line is skipped; otherwise the line
is parsed as a base-16 frame length — `int(response.strip(), 16)` — whose
failure is an uncaught `ValueError`; on success read that many payload
bytes. -/
def on_result (s : TweetState) (response : Str) (id : Nat) :
    Except Str (TweetState × List Effect) :=
  if id ≠ s.current_iostream then Except.ok (s, [])
  else if pyStrip response = ([] : List Char) then Except.ok (wait_for_message s id)
  else
    match int_base16 (pyStrip response) with
    | none => Except.error (pys "ValueError")
    | some n => Except.ok (s, [Effect.readBytes n (Cont.payload id)])

/-- `on_headers`: staleness check, then branch on the status code.
420 schedules a retry after the rate-limit delay and doubles it; any other
non-200 outside `{401, 403, 404, 406, 413}` schedules a retry after the
error delay and doubles it (capped); the five fatal codes read the error
body by content length (or report at once when it is absent or zero) and
never schedule a retry; 200 resets all three backoff counters, arms the
stall deadline and starts reading frames. -/
def on_headers (s : TweetState) (now : ℤ) (newId : Nat) (resp : Str) (id : Nat) :
    Except Str (TweetState × List Effect) :=
  if id ≠ s.current_iostream then Except.ok (s, [])
  else
    match response_code_of resp with
    | Except.error e => Except.error e
    | Except.ok code =>
    if code ≠ 200 then
      if code = 420 then
        let s := { s with stream_restart_in_process := false }
        let (s, effs) := schedule_restart s now newId s.retry_rate_limited_delay
        let s := { s with retry_rate_limited_delay :=
                     rateLimitDelayStep s.retry_rate_limited_delay }
        Except.ok (s, effs ++ if s.has_rate_limited_callback then [Effect.rateLimitedCb] else [])
      else if code ∉ ([401, 403, 404, 406, 413] : List Int) then
        let s := { s with stream_restart_in_process := false }
        let (s, effs) := schedule_restart s now newId s.retry_delay
        let s := { s with retry_delay := errorDelayStep s.retry_delay }
        Except.ok (s, effs)
      else
        let exc := exc_string resp
        match content_length_of resp with
        | Except.error e => Except.error e
        | Except.ok cl =>
          if cl = 0 then
            match on_error s exc with
            | Except.error e => Except.error e
            | Except.ok effs => Except.ok (s, effs)
          else Except.ok (s, [Effect.readBytes cl (Cont.errorBody exc)])
    else
      let s := { s with stream_restart_in_process := false
                        retry_delay := sec 5
                        retry_rate_limited_delay := sec 60
                        retry_before_established_delay := 1 }
      let s := set_stall_timeout s now
      Except.ok (wait_for_message s id)

/-!  ## Shared concrete states and inputs for witnesses and counterexamples -/

/-- A state as it stands right after a stream was established at time 0:
`on_headers` saw a 200, reset the counters and armed the stall deadline, and
the user registered message and error callbacks. -/
def streamingState : TweetState :=
  { has_callback := true
    has_error_callback := true
    has_rate_limited_callback := false
    clean_message := false
    retry_delay := sec 5
    retry_rate_limited_delay := sec 60
    retry_before_established_delay := 1
    stream_restart_scheduled := false
    stream_restart_in_process := false
    stream_restart_time := some 0
    timeout_handle := none
    stall_timeout_handle := some (sec 90)
    pending_stall_deadlines := [sec 90]
    twitter_stream := some 1
    stream_closed := false
    current_iostream := 1
    partial_tweet := [] }

/-- `streamingState` after a second attempt (token 2) superseded the first. -/
def supersededState : TweetState :=
  { streamingState with current_iostream := 2, twitter_stream := some 2 }

/-- `streamingState` with half a JSON document accumulated in the partial
buffer by the first connection. -/
def bufferedState : TweetState :=
  { streamingState with partial_tweet := pys "\x7b\x22a\x22:" }

/-- `bufferedState` after the transport closed at time 400 and
`close_callback` reconnected immediately as attempt 2. -/
def afterReconnect : TweetState := (close_callback bufferedState 400 2).1

/-- `streamingState` after frame payload `"0."` failed to parse and was
buffered. -/
def afterFirstFrame : TweetState :=
  state_of (parse_json streamingState 0 (pys "0.") 1) streamingState

/-- `streamingState` with no stall deadline pending. -/
def idleStallState : TweetState :=
  { streamingState with stall_timeout_handle := none, pending_stall_deadlines := [] }

/-- `streamingState` with no error callback registered. -/
def noErrorCbState : TweetState := { streamingState with has_error_callback := false }

/-- A configuration with all four credentials present but the consumer
secret empty. -/
def emptySecretConfig : Configuration :=
  { twitter_consumer_key := some (pys "k")
    twitter_consumer_secret := some []
    twitter_access_token := some (pys "t")
    twitter_access_token_secret := some (pys "ts")
    twitter_stream_host := none
    twitter_stream_scheme := none
    twitter_stream_port := none }

/-- A configuration with all four credentials present and nonempty. -/
def fullConfig : Configuration :=
  { twitter_consumer_key := some (pys "k")
    twitter_consumer_secret := some (pys "ks")
    twitter_access_token := some (pys "t")
    twitter_access_token_secret := some (pys "ts")
    twitter_stream_host := none
    twitter_stream_scheme := none
    twitter_stream_port := none }

/-- The state `TweetStream_init` builds when it succeeds. -/
def initState (clean : Bool) : TweetState :=
  { has_callback := false
    has_error_callback := false
    has_rate_limited_callback := false
    clean_message := clean
    retry_delay := sec 5
    retry_rate_limited_delay := sec 60
    retry_before_established_delay := 1
    stream_restart_scheduled := false
    stream_restart_in_process := false
    stream_restart_time := none
    timeout_handle := none
    stall_timeout_handle := none
    pending_stall_deadlines := []
    twitter_stream := none
    stream_closed := true
    current_iostream := 0
    partial_tweet := [] }

/-- The 404 response used by witnesses. -/
def resp404 : Str := pys "HTTP/1.1 404 Not Found\r\nContent-Length: 9\r\n\r\n"

/-- The 420 response used by witnesses. -/
def resp420 : Str := pys "HTTP/1.1 420 Enhanced Calm\r\n\r\n"

/-- The 500 response used by witnesses. -/
def resp500 : Str := pys "HTTP/1.1 500 Oops\r\n\r\n"

/-- The 200 response used by witnesses. -/
def resp200 : Str := pys "HTTP/1.1 200 OK\r\n\r\n"

/-!  ## Helper lemmas -/

/-- The io-loop's stall-timeout registry matches the handle the instance
keeps: the invariant under which "at most one stall deadline is pending" is
provable. -/
def stallInv (s : TweetState) : Prop :=
  s.pending_stall_deadlines = s.stall_timeout_handle.toList

/-- Arming always leaves the handle at `now + 90` seconds. -/
theorem set_stall_handle (s : TweetState) (now : ℤ) :
    (set_stall_timeout s now).stall_timeout_handle = some (now + sec 90) := by
  unfold set_stall_timeout remove_stall_timeout
  rcases h : s.stall_timeout_handle with _ | d <;> simp [h]

/-- Arming from an invariant state cancels the pending deadline and leaves
exactly the new one. -/
theorem set_stall_pending (s : TweetState) (now : ℤ) (h : stallInv s) :
    (set_stall_timeout s now).pending_stall_deadlines = [now + sec 90] := by
  unfold stallInv at h
  unfold set_stall_timeout remove_stall_timeout
  rcases hh : s.stall_timeout_handle with _ | d <;> simp [hh] at h <;> simp [hh, h]

/-- Arming preserves the invariant. -/
theorem stallInv_set (s : TweetState) (now : ℤ) (h : stallInv s) :
    stallInv (set_stall_timeout s now) := by
  unfold stallInv
  rw [set_stall_pending s now h, set_stall_handle s now]
  rfl

/-- A sequence of arms (`set_stall_timeout` at each listed time, in order). -/
def armTrace (s : TweetState) : List ℤ → TweetState
  | [] => s
  | t :: ts => armTrace (set_stall_timeout s t) ts

/-- The stall callback fires at time `t` when the io-loop holds a stall
deadline equal to `t`. -/
def stallFiresAt (s : TweetState) (t : ℤ) : Prop :=
  t ∈ s.pending_stall_deadlines

/-- After a trace of arms, the registry holds the deadline of the last arm
only (or is untouched when there was no arm). -/
theorem armTrace_pending (ts : List ℤ) : ∀ s : TweetState, stallInv s →
    (armTrace s ts).pending_stall_deadlines =
      (ts.getLast?.map fun a => [a + sec 90]).getD s.pending_stall_deadlines := by
  induction ts with
  | nil => intro s _; rfl
  | cons t ts ih =>
    intro s h
    have h1 := set_stall_pending s t h
    have h2 := stallInv_set s t h
    show (armTrace (set_stall_timeout s t) ts).pending_stall_deadlines = _
    rw [ih _ h2, h1]
    cases ts with
    | nil => rfl
    | cons u us =>
      rw [List.getLast?_cons_cons]
      rcases hl : (u :: us).getLast? with _ | a
      · simp [List.getLast?_eq_none_iff] at hl
      · rfl

/-- `wait_for_message` never changes the state. -/
theorem wait_state (s : TweetState) (id : Nat) : (wait_for_message s id).1 = s := by
  unfold wait_for_message
  split <;> rfl

/-- `emit_and_wait` never changes the state. -/
theorem emit_state (s : TweetState) (v : JsonVal) (id : Nat) :
    (emit_and_wait s v id).1 = s := by
  have hw := wait_state s id
  rcases h : wait_for_message s id with ⟨s1, w⟩
  rw [h] at hw
  simp [emit_and_wait, h, hw]

/-- `parse_response` never changes the state: it only emits and reads on. -/
theorem parse_response_state (s : TweetState) (now : ℤ) (v : JsonVal) (id : Nat)
    (st : TweetState) (effs : List Effect)
    (h : parse_response s now v id = Except.ok (st, effs)) : st = s := by
  unfold parse_response at h
  repeat' split at h
  all_goals try simp only [Except.ok.injEq] at h
  all_goals
    first
      | exact Except.noConfusion h
      | (have h3 := congrArg Prod.fst h
         simp only [wait_state, emit_state] at h3
         exact h3.symm)

/-- No closing or reconnect-scheduling path touches `partial_tweet`. -/
theorem close_helper_keeps_buffer (s : TweetState) :
    (close_helper s).partial_tweet = s.partial_tweet := by
  unfold close_helper remove_timeout remove_stall_timeout
  rcases h1 : s.timeout_handle with _ | a <;> rcases h2 : s.stall_timeout_handle with _ | b <;>
    simp [h1, h2]

/-- `close` preserves the partial buffer. -/
theorem close_keeps_buffer (s : TweetState) : (close s).partial_tweet = s.partial_tweet := by
  unfold close
  rcases h : s.twitter_stream with _ | w <;> simp [h, close_helper_keeps_buffer]

/-- `open_twitter_stream` preserves the partial buffer. -/
theorem open_keeps_buffer (s : TweetState) (now : ℤ) (newId : Nat) :
    ((open_twitter_stream s now newId).1).partial_tweet = s.partial_tweet := by
  obtain ⟨cb, ecb, rlcb, cm, rd, rrl, rbe, srs, srp, srt, th, sth, psd, tw, sc, ci, pt⟩ := s
  unfold open_twitter_stream add_timeout remove_timeout close close_helper remove_stall_timeout
  rcases srt with _ | t <;> rcases th with _ | a <;> rcases sth with _ | b <;>
    rcases tw with _ | w <;> rcases srp <;>
      first
        | rfl
        | (by_cases hc : now - t < sec 5 <;>
            simp [hc, remove_timeout, remove_stall_timeout, close, close_helper, add_timeout])

/-- `schedule_restart` preserves the partial buffer. -/
theorem schedule_restart_keeps_buffer (s : TweetState) (now : ℤ) (newId : Nat) (seconds : ℤ) :
    ((schedule_restart s now newId seconds).1).partial_tweet = s.partial_tweet := by
  unfold schedule_restart
  by_cases h1 : s.stream_restart_scheduled = false ∧ s.stream_restart_in_process = false <;>
    simp [h1]
  by_cases h2 : seconds = 0 <;> simp [h2]
  · exact open_keeps_buffer _ now newId
  · unfold add_timeout remove_timeout
    rcases h3 : s.timeout_handle with _ | a <;> simp [h3]

/-- `schedule_restart` emits either nothing or a single immediate open. -/
theorem schedule_restart_effects (s : TweetState) (now : ℤ) (newId : Nat) (seconds : ℤ) :
    (schedule_restart s now newId seconds).2 = [] ∨
    (schedule_restart s now newId seconds).2 = [Effect.openStream newId] := by
  unfold schedule_restart
  by_cases h1 : s.stream_restart_scheduled = false ∧ s.stream_restart_in_process = false <;>
    simp [h1]
  by_cases h2 : seconds = 0 <;> simp [h2]
  unfold open_twitter_stream add_timeout remove_timeout close close_helper remove_stall_timeout
  obtain ⟨cb, ecb, rlcb, cm, rd, rrl, rbe, srs, srp, srt, th, sth, psd, tw, sc, ci, pt⟩ := s
  rcases srt with _ | t <;> rcases th with _ | a <;> rcases sth with _ | b <;>
    rcases tw with _ | w <;> rcases srp <;>
      first
        | (by_cases hc : now - t < sec 5 <;>
            simp [hc, remove_timeout, remove_stall_timeout, close, close_helper, add_timeout])
        | simp [remove_timeout, remove_stall_timeout, close, close_helper, add_timeout]

/-- Arming the stall deadline changes no other field. -/
theorem set_stall_keeps_buffer (s : TweetState) (now : ℤ) :
    (set_stall_timeout s now).partial_tweet = s.partial_tweet := by
  unfold set_stall_timeout remove_stall_timeout
  rcases h : s.stall_timeout_handle with _ | d <;> simp [h]

/-- Arming the stall deadline preserves `stream_closed`. -/
theorem set_stall_closed (s : TweetState) (now : ℤ) :
    (set_stall_timeout s now).stream_closed = s.stream_closed := by
  unfold set_stall_timeout remove_stall_timeout
  rcases h : s.stall_timeout_handle with _ | d <;> simp [h]

/-- Arming the stall deadline preserves the attempt token. -/
theorem set_stall_current (s : TweetState) (now : ℤ) :
    (set_stall_timeout s now).current_iostream = s.current_iostream := by
  unfold set_stall_timeout remove_stall_timeout
  rcases h : s.stall_timeout_handle with _ | d <;> simp [h]

/-- Arming the stall deadline preserves the clean flag. -/
theorem set_stall_clean (s : TweetState) (now : ℤ) :
    (set_stall_timeout s now).clean_message = s.clean_message := by
  unfold set_stall_timeout remove_stall_timeout
  rcases h : s.stall_timeout_handle with _ | d <;> simp [h]

/-- Arming the stall deadline preserves the message-callback flag. -/
theorem set_stall_cb (s : TweetState) (now : ℤ) :
    (set_stall_timeout s now).has_callback = s.has_callback := by
  unfold set_stall_timeout remove_stall_timeout
  rcases h : s.stall_timeout_handle with _ | d <;> simp [h]

/-- A frame whose payload fails to parse alone and still fails after
concatenation with the pending buffer only buffers: nothing is emitted, the
payload is appended to `partial_tweet`, and the fields the next frame's
processing depends on are unchanged. -/
theorem parse_json_buffers (s dflt : TweetState) (now : ℤ) (f : Str)
    (hstrip : pyStrip f ≠ ([] : List Char))
    (h1 : json_loads f = none)
    (h2 : json_loads (s.partial_tweet ++ f) = none) :
    (effects_of (parse_json s now f s.current_iostream)).filter effIsMessage = [] ∧
    (state_of (parse_json s now f s.current_iostream) dflt).partial_tweet
        = s.partial_tweet ++ f ∧
    (state_of (parse_json s now f s.current_iostream) dflt).current_iostream
        = s.current_iostream ∧
    (state_of (parse_json s now f s.current_iostream) dflt).clean_message
        = s.clean_message ∧
    (state_of (parse_json s now f s.current_iostream) dflt).has_callback
        = s.has_callback := by
  unfold parse_json
  rw [if_neg (by simp)]
  try dsimp only
  rw [if_neg hstrip, h1]
  try dsimp only
  rw [set_stall_keeps_buffer, h2]
  unfold wait_for_message effects_of state_of
  dsimp only
  cases hsc : (set_stall_timeout s now).stream_closed <;>
    simp [hsc, effIsMessage, set_stall_keeps_buffer, set_stall_current, set_stall_clean,
      set_stall_cb]

/-- A frame whose payload fails to parse alone but completes the pending
buffer: in non-clean mode with a callback registered, exactly that one
message — the parse of the concatenation — is emitted and the buffer is
cleared. -/
theorem parse_json_completes (s dflt : TweetState) (now : ℤ) (f : Str) (v : JsonVal)
    (hclean : s.clean_message = false)
    (hcb : s.has_callback = true)
    (hstrip : pyStrip f ≠ ([] : List Char))
    (h1 : json_loads f = none)
    (h2 : json_loads (s.partial_tweet ++ f) = some v) :
    (effects_of (parse_json s now f s.current_iostream)).filter effIsMessage
        = [Effect.messageCb v] ∧
    (state_of (parse_json s now f s.current_iostream) dflt).partial_tweet = [] := by
  unfold parse_json
  rw [if_neg (by simp)]
  try dsimp only
  rw [if_neg hstrip, h1]
  try dsimp only
  rw [set_stall_keeps_buffer, h2]
  unfold parse_response emit_and_wait wait_for_message effects_of state_of
  try dsimp only
  rw [set_stall_clean, hclean]
  try dsimp only
  rw [set_stall_cb, hcb]
  cases hsc : (set_stall_timeout s now).stream_closed <;> simp [hsc, effIsMessage]

/-- Iterating the error-delay update from its initial 5 s value gives the
doubling sequence capped at 320 s. -/
theorem errorDelay_formula (n : Nat) :
    errorDelayStep^[n] (sec 5) = min (sec 5 * 2 ^ n) (sec 320) := by
  induction n with
  | zero => simp [sec]
  | succ n ih =>
    rw [Function.iterate_succ_apply', ih]
    unfold errorDelayStep sec
    have hx : (0:ℤ) < 2 ^ n := pow_pos (by norm_num) n
    rcases lt_or_le ((4 * 5 : ℤ) * 2 ^ n) (4 * 320) with h | h
    · rw [min_eq_left h.le, if_pos h]
      have hn : n ≤ 5 := by
        by_contra hn
        push_neg at hn
        have h6 : (2:ℤ) ^ 6 ≤ 2 ^ n := pow_le_pow_right₀ (by norm_num) hn
        have : (64:ℤ) ≤ 2 ^ n := by norm_num at h6 ⊢; linarith
        linarith
      have h7 : (2:ℤ) ^ (n + 1) ≤ 2 ^ 6 := pow_le_pow_right₀ (by norm_num) (by omega)
      have h8 : (2:ℤ) ^ (n + 1) ≤ 64 := by norm_num at h7 ⊢; linarith
      rw [min_eq_left (by nlinarith)]
      ring
    · have h9 : (2:ℤ) ^ n ≤ 2 ^ (n + 1) := pow_le_pow_right₀ (by norm_num) (Nat.le_succ n)
      rw [min_eq_right h, if_neg (by norm_num)]
      rw [min_eq_right (by linarith)]

/-- Iterating the rate-limit update from its initial 60 s value doubles with
no cap. -/
theorem rateLimit_formula (n : Nat) :
    rateLimitDelayStep^[n] (sec 60) = sec 60 * 2 ^ n := by
  induction n with
  | zero => simp
  | succ n ih =>
    rw [Function.iterate_succ_apply', ih]
    unfold rateLimitDelayStep
    ring

/-- Iterating the pre-established update from its initial 0.25 s (one
quarter) adds a quarter each time, capped at 16 s. -/
theorem preEstablished_formula (n : Nat) :
    preEstablishedDelayStep^[n] 1 = min (1 + (n : ℤ)) (sec 16) := by
  induction n with
  | zero => simp [sec]
  | succ n ih =>
    rw [Function.iterate_succ_apply', ih]
    unfold preEstablishedDelayStep sec
    rcases lt_or_le ((1 : ℤ) + n) (4 * 16) with h | h
    · rw [min_eq_left h.le, if_pos h, min_eq_left (by push_cast; omega)]
      push_cast
      ring
    · rw [min_eq_right h, if_neg (by norm_num), min_eq_right (by push_cast; omega)]

/-!  ## Claims -/

/-- C1: for the three backoff tiers, the delay scheduled after `n`
consecutive failures of a kind equals the tier's formula — `5 * 2^n` seconds
capped at 320 s for `errorDelay`, `60 * 2^n` seconds for `rateLimitDelay`
(the code puts no cap on this tier), `0.25 + 0.25 * n` seconds capped at
16 s for `preEstablishedDelay` (stated on the quarter-second grid:
`1 + n` quarters capped at `sec 16`) — and each failure branch schedules the
current counter value as the retry delay before stepping the counter, while
a 200 response resets all three counters to their initial values. -/
theorem C1_backoff_tiers :
    (∀ n : Nat, errorDelayStep^[n] (sec 5) = min (sec 5 * 2 ^ n) (sec 320)) ∧
    (∀ n : Nat, rateLimitDelayStep^[n] (sec 60) = sec 60 * 2 ^ n) ∧
    (∀ n : Nat, preEstablishedDelayStep^[n] 1 = min (1 + (n : ℤ)) (sec 16)) ∧
    (∀ (s : TweetState) (now : ℤ) (newId : Nat) (resp : Str),
      response_code_of resp = Except.ok 420 →
      s.stream_restart_scheduled = false →
      s.retry_rate_limited_delay ≠ 0 →
      (state_of (on_headers s now newId resp s.current_iostream) s).retry_rate_limited_delay
          = rateLimitDelayStep s.retry_rate_limited_delay ∧
      (state_of (on_headers s now newId resp s.current_iostream) s).timeout_handle
          = some (now + s.retry_rate_limited_delay)) ∧
    (∀ (s : TweetState) (now : ℤ) (newId : Nat) (resp : Str) (c : Int),
      response_code_of resp = Except.ok c →
      c ≠ 200 → c ≠ 420 → c ∉ ([401, 403, 404, 406, 413] : List Int) →
      s.stream_restart_scheduled = false →
      s.retry_delay ≠ 0 →
      (state_of (on_headers s now newId resp s.current_iostream) s).retry_delay
          = errorDelayStep s.retry_delay ∧
      (state_of (on_headers s now newId resp s.current_iostream) s).timeout_handle
          = some (now + s.retry_delay)) ∧
    (∀ (s : TweetState) (now : ℤ) (newId : Nat),
      s.stream_restart_scheduled = false →
      s.retry_before_established_delay ≠ 0 →
      (close_before_established_callback s now newId).1.retry_before_established_delay
          = preEstablishedDelayStep s.retry_before_established_delay ∧
      (close_before_established_callback s now newId).1.timeout_handle
          = some (now + s.retry_before_established_delay)) ∧
    (∀ (s : TweetState) (now : ℤ) (newId : Nat) (resp : Str),
      response_code_of resp = Except.ok 200 →
      (state_of (on_headers s now newId resp s.current_iostream) s).retry_delay = sec 5 ∧
      (state_of (on_headers s now newId resp s.current_iostream) s).retry_rate_limited_delay
          = sec 60 ∧
      (state_of (on_headers s now newId resp s.current_iostream) s).retry_before_established_delay
          = 1) := by
  refine ⟨errorDelay_formula, rateLimit_formula, preEstablished_formula, ?_, ?_, ?_, ?_⟩
  · intro s now newId resp hcode hsched hne
    unfold on_headers
    rw [if_neg (by simp)]
    rw [hcode]
    rcases hth : s.timeout_handle with _ | a <;>
      simp [state_of, schedule_restart, add_timeout, remove_timeout, hsched, hne, hth]
  · intro s now newId resp c hcode h200 h420 hfatal hsched hne
    unfold on_headers
    rw [if_neg (by simp)]
    rw [hcode]
    rcases hth : s.timeout_handle with _ | a <;>
      simp [state_of, schedule_restart, add_timeout, remove_timeout,
        hsched, hne, hth, h200, h420, hfatal]
  · intro s now newId hsched hne
    unfold close_before_established_callback
    rcases htw : s.twitter_stream with _ | w <;>
      rcases hth : s.timeout_handle with _ | a <;>
        rcases hsh : s.stall_timeout_handle with _ | b <;>
          simp [close, close_helper, schedule_restart, add_timeout, remove_timeout,
            remove_stall_timeout, hsched, hne, htw, hth, hsh]
  · intro s now newId resp hcode
    unfold on_headers
    rw [if_neg (by simp)]
    rw [hcode]
    rcases hsh : s.stall_timeout_handle with _ | b <;>
      cases hsc : s.stream_closed <;>
        simp [state_of, set_stall_timeout, remove_stall_timeout, wait_for_message, hsh, hsc]

/-- C1 witness: the formulas and branch behaviour at concrete inputs — the
seventh error-tier delay hits the 320 s cap; a 420 at time 400 on the
established state schedules a retry 60 s later and doubles the counter;
three consecutive pre-established failures schedule 0.25 s, 0.5 s, 0.75 s;
a 200 resets the counters. -/
theorem C1_backoff_tiers_witness :
    errorDelayStep^[7] (sec 5) = sec 320 ∧
    (state_of (on_headers streamingState 400 2 resp420 1) streamingState).timeout_handle
        = some (400 + sec 60) ∧
    (state_of (on_headers streamingState 400 2 resp420 1) streamingState).retry_rate_limited_delay
        = sec 120 ∧
    (state_of (on_headers streamingState 400 2 resp500 1) streamingState).retry_delay = sec 10 ∧
    (state_of (on_headers streamingState 400 2 resp200 1) streamingState).retry_delay = sec 5 := by
  have h1 := C1_backoff_tiers.1 7
  have h2 := C1_backoff_tiers.2.2.2.1 streamingState 400 2 resp420 rfl rfl (by decide)
  have h3 := C1_backoff_tiers.2.2.2.2.1 streamingState 400 2 resp500 500 rfl
    (by decide) (by decide) (by decide) rfl (by decide)
  have h4 := C1_backoff_tiers.2.2.2.2.2.2 streamingState 400 2 resp200 rfl
  exact ⟨h1.trans (by decide), h2.2.trans (by decide), h2.1.trans (by decide),
    h3.1.trans (by decide), h4.1⟩

/-- C2 counterexample: with the claim's premises in force (Streaming state,
`errorDelay` at its initial 5 s) a transport close at time 400 makes
`close_callback` restart immediately — the new transport is opened
synchronously (`Effect.openStream`) and no retry timer is armed — rather
than scheduling the reconnect after the 5 s `errorDelay`. -/
theorem C2_counterexample :
    streamingState.retry_delay = sec 5 ∧
    (close_callback streamingState 400 2).2 = [Effect.openStream 2] ∧
    (close_callback streamingState 400 2).1.timeout_handle = none ∧
    (close_callback streamingState 400 2).1.timeout_handle
        ≠ some (400 + streamingState.retry_delay) := by
  refine ⟨rfl, rfl, rfl, by decide⟩

/-- C2 amended: a transport close while Streaming triggers
`schedule_restart()` with delay 0, i.e. an immediate reconnect; only when
the previous attempt started less than 5 s ago does the flap guard defer the
new attempt by a fixed 5 s.  The `errorDelay` tier is neither consulted nor
stepped: `retry_delay` is unchanged in both cases. -/
theorem C2_amended :
    ∀ (s : TweetState) (now : ℤ) (newId : Nat),
      s.stream_restart_scheduled = false →
      s.stream_restart_in_process = false →
      ((∀ t, s.stream_restart_time = some t → sec 5 ≤ now - t) →
        (close_callback s now newId).2 = [Effect.openStream newId] ∧
        (close_callback s now newId).1.timeout_handle = none ∧
        (close_callback s now newId).1.retry_delay = s.retry_delay) ∧
      (∀ t, s.stream_restart_time = some t → now - t < sec 5 →
        (close_callback s now newId).2 = [] ∧
        (close_callback s now newId).1.timeout_handle = some (now + sec 5) ∧
        (close_callback s now newId).1.retry_delay = s.retry_delay) := by
  intro s now newId hsched hproc
  unfold close_callback close_helper schedule_restart open_twitter_stream
  constructor
  · intro hguard
    rcases hrt : s.stream_restart_time with _ | t
    · rcases hth : s.timeout_handle with _ | a <;>
        rcases hsh : s.stall_timeout_handle with _ | b <;>
          rcases htw : s.twitter_stream with _ | w <;>
            simp [remove_timeout, remove_stall_timeout, close, close_helper,
              add_timeout, hsched, hproc, hrt, hth, hsh, htw]
    · have hge : ¬ (now - t < sec 5) := not_lt.mpr (hguard t hrt)
      rcases hth : s.timeout_handle with _ | a <;>
        rcases hsh : s.stall_timeout_handle with _ | b <;>
          rcases htw : s.twitter_stream with _ | w <;>
            simp [remove_timeout, remove_stall_timeout, close, close_helper,
              add_timeout, hsched, hproc, hrt, hth, hsh, htw, hge]
  · intro t hrt hlt
    rcases hth : s.timeout_handle with _ | a <;>
      rcases hsh : s.stall_timeout_handle with _ | b <;>
        rcases htw : s.twitter_stream with _ | w <;>
          simp [remove_timeout, remove_stall_timeout, close, close_helper,
            add_timeout, hsched, hproc, hrt, hth, hsh, htw, hlt]

/-- C2 witness: applying the amended statement at the established state and
time 400 (the attempt started at time 0, so the flap guard is off). -/
theorem C2_amended_witness :
    (close_callback streamingState 400 2).2 = [Effect.openStream 2] ∧
    (close_callback streamingState 400 2).1.timeout_handle = none ∧
    (close_callback streamingState 400 2).1.retry_delay = streamingState.retry_delay :=
  (C2_amended streamingState 400 2 rfl rfl).1
    (by intro t ht; injection ht with h; subst h; decide)

/-- C3 counterexample: on the established state, a frame-length line `"zz"`
(not parsable in base 16) makes `on_result` raise an uncaught `ValueError`
out of the read callback — there is no `MalformedFrame` error in the code,
nothing catches the failure at the controller boundary, and no reconnect is
scheduled by it (an `Except.error` result carries no state change and no
effects). -/
theorem C3_counterexample :
    on_result streamingState (pys "zz") 1 = Except.error (pys "ValueError") := rfl

/-- C3 amended: a received frame-length line that is current (token matches)
and not blank, and whose stripped text `int(·, 16)` cannot parse, makes
`on_result` raise an uncaught `ValueError` (Python's `int` exception): the
parse failure is not caught, is not wrapped in any dedicated error, and
schedules nothing. -/
theorem C3_amended :
    ∀ (s : TweetState) (response : Str),
      pyStrip response ≠ ([] : List Char) →
      int_base16 (pyStrip response) = none →
      on_result s response s.current_iostream = Except.error (pys "ValueError") := by
  intro s response hne hhex
  unfold on_result
  rw [if_neg (by simp), if_neg hne, hhex]

/-- C3 witness: the amended statement at the concrete line `"xyz"`. -/
theorem C3_amended_witness :
    on_result streamingState (pys "xyz") 1 = Except.error (pys "ValueError") :=
  C3_amended streamingState (pys "xyz") (by decide) (by decide)

/-- C4 counterexample: the partial buffer survives the `Closed` transition.
`bufferedState` holds the first half of a JSON document buffered by
connection 1; after the transport closes and `close_callback` reconnects as
attempt 2, the buffer still holds those bytes, and the very first frame of
connection 2 (the second half) makes the reader emit the document assembled
from both connections — bytes buffered during one connection do influence
the messages parsed on the next. -/
theorem C4_counterexample :
    bufferedState.partial_tweet = pys "\x7b\x22a\x22:" ∧
    afterReconnect.current_iostream = 2 ∧
    afterReconnect.partial_tweet = pys "\x7b\x22a\x22:" ∧
    effects_of (parse_json afterReconnect 500 (pys "1\x7d") 2) =
      [Effect.messageCb (JsonVal.obj [(pys "a", JsonVal.num 1)]), Effect.readLine 2] :=
  ⟨rfl, rfl, rfl, rfl⟩

/-- C4 amended: the partial buffer is only ever cleared by a successful JSON
parse inside `parse_json`; every teardown and reconnect operation
(`close_helper`, `close`, `open_twitter_stream`, `schedule_restart`,
`close_callback`, `stall_callback`) leaves `partial_tweet` untouched, so the
buffer persists across connection attempts. -/
theorem C4_amended :
    ∀ (s : TweetState) (now : ℤ) (newId : Nat) (seconds : ℤ),
      (close_helper s).partial_tweet = s.partial_tweet ∧
      (close s).partial_tweet = s.partial_tweet ∧
      ((open_twitter_stream s now newId).1).partial_tweet = s.partial_tweet ∧
      ((schedule_restart s now newId seconds).1).partial_tweet = s.partial_tweet ∧
      ((close_callback s now newId).1).partial_tweet = s.partial_tweet ∧
      ((stall_callback s now newId).1).partial_tweet = s.partial_tweet := by
  intro s now newId seconds
  refine ⟨close_helper_keeps_buffer s, close_keeps_buffer s, open_keeps_buffer s now newId,
    schedule_restart_keeps_buffer s now newId seconds, ?_, ?_⟩
  · unfold close_callback
    rw [schedule_restart_keeps_buffer, close_helper_keeps_buffer]
  · unfold stall_callback
    rw [schedule_restart_keeps_buffer, close_keeps_buffer]

/-- C5 counterexample: the error-body continuation (`get_error_body`,
registered by attempt 1's `read_bytes` on a fatal status) carries no attempt
identity token — unlike `on_connect` / `on_headers` / `on_result` /
`parse_json` it has no token parameter to check — and when it fires after
attempt 2 has become current it still invokes the error callback instead of
being a no-op. -/
theorem C5_counterexample :
    supersededState.current_iostream = 2 ∧
    get_error_body supersededState (pys "Could not connect: HTTP/1.1 404 Not Found")
        (pys "Too long") =
      Except.ok [Effect.errorCb (pys "Could not connect: HTTP/1.1 404 Not Found"
        ++ [Char.ofNat 10] ++ pys "Too long")] :=
  ⟨rfl, rfl⟩

/-- C5 amended: exactly the four callbacks that the source registers with
the token of their attempt — `on_connect`, `on_headers`, `on_result` and
`parse_json` — are no-ops on a stale token: they return the state unchanged
and emit nothing.  The close, stall and error-body callbacks carry no token
(close-callback staleness is instead handled by swapping the transport's
close callback). -/
theorem C5_amended :
    ∀ (s : TweetState) (now : ℤ) (newId : Nat) (resp payload : Str) (id : Nat),
      id ≠ s.current_iostream →
      on_connect s id = (s, []) ∧
      on_headers s now newId resp id = Except.ok (s, []) ∧
      on_result s resp id = Except.ok (s, []) ∧
      parse_json s now payload id = Except.ok (s, []) := by
  intro s now newId resp payload id h
  refine ⟨?_, ?_, ?_, ?_⟩ <;> simp [on_connect, on_headers, on_result, parse_json, h]

/-- C5 witness: a stale token (99) on the established state (current token
1) makes all four guarded callbacks no-ops. -/
theorem C5_amended_witness :
    on_connect streamingState 99 = (streamingState, []) ∧
    on_headers streamingState 400 2 resp200 99 = Except.ok (streamingState, []) ∧
    on_result streamingState (pys "1a") 99 = Except.ok (streamingState, []) ∧
    parse_json streamingState 400 (pys "1\x7d") 99 = Except.ok (streamingState, []) :=
  C5_amended streamingState 400 2 resp200 (pys "1a") 99 (by decide)

/-- C6: the stall supervisor.  (1) Arming cancels any pending stall deadline
and schedules exactly one new deadline 90 s from now, so at most one is ever
pending; (2) over any sequence of arms starting with no deadline pending,
the stall callback fires at time `t` iff `t` is exactly 90 s after the last
arm — receiving a frame (which arms) before the deadline rearms it for a
fresh 90 s window; (3) every `parse_json` invocation for the current attempt
that returns normally leaves the stall deadline at `now + 90` s (the code
rearms on every received payload, keep-alives and partial frames included).
-/
theorem C6_stall_supervisor :
    (∀ (s : TweetState) (now : ℤ), stallInv s →
      (set_stall_timeout s now).pending_stall_deadlines = [now + sec 90] ∧
      (set_stall_timeout s now).stall_timeout_handle = some (now + sec 90) ∧
      stallInv (set_stall_timeout s now)) ∧
    (∀ (s : TweetState) (ts : List ℤ) (t : ℤ), stallInv s →
      s.stall_timeout_handle = none →
      (stallFiresAt (armTrace s ts) t ↔ ∃ a, ts.getLast? = some a ∧ t = a + sec 90)) ∧
    (∀ (s : TweetState) (now : ℤ) (payload : Str) (st : TweetState) (effs : List Effect),
      parse_json s now payload s.current_iostream = Except.ok (st, effs) →
      st.stall_timeout_handle = some (now + sec 90)) := by
  refine ⟨?_, ?_, ?_⟩
  · intro s now h
    exact ⟨set_stall_pending s now h, set_stall_handle s now, stallInv_set s now h⟩
  · intro s ts t hinv h0
    unfold stallFiresAt
    rw [armTrace_pending ts s hinv]
    unfold stallInv at hinv
    rw [h0] at hinv
    rcases hl : ts.getLast? with _ | a
    · simp [hinv]
    · simp
  · intro s now payload st effs h
    unfold parse_json at h
    rw [if_neg (by simp)] at h
    dsimp only at h
    have hh := set_stall_handle s now
    by_cases he : pyStrip payload = ([] : List Char)
    · rw [if_pos he] at h
      injection h with h2
      have h3 := congrArg Prod.fst h2
      rw [wait_state] at h3
      dsimp only at h3
      rw [← h3]
      exact hh
    · rw [if_neg he] at h
      rcases hj : json_loads payload with _ | v
      · rw [hj] at h
        dsimp only at h
        rcases hj2 : json_loads ((set_stall_timeout s now).partial_tweet ++ payload)
            with _ | v2
        · rw [hj2] at h
          injection h with h2
          have h3 := congrArg Prod.fst h2
          rw [wait_state] at h3
          dsimp only at h3
          rw [← h3]
          dsimp only
          exact hh
        · rw [hj2] at h
          have h4 := parse_response_state _ now v2 s.current_iostream st effs h
          rw [h4]
          dsimp only
          exact hh
      · rw [hj] at h
        have h4 := parse_response_state _ now v s.current_iostream st effs h
        rw [h4]
        dsimp only
        exact hh

/-- C6 witness: with no deadline pending, arms at 0 s and 89 s (a frame
received at 89 s) produce a stall exactly at 179 s and none at 90 s. -/
theorem C6_stall_supervisor_witness :
    stallFiresAt (armTrace idleStallState [0, sec 89]) (sec 89 + sec 90) ∧
    ¬ stallFiresAt (armTrace idleStallState [0, sec 89]) (sec 90) := by
  have h := C6_stall_supervisor.2.1 idleStallState [0, sec 89]
  constructor
  · exact (h (sec 89 + sec 90) rfl rfl).mpr ⟨sec 89, rfl, rfl⟩
  · intro hf
    rcases (h (sec 90) rfl rfl).mp hf with ⟨a, ha, hv⟩
    injection ha with ha2
    rw [← ha2] at hv
    exact absurd hv (by decide)

/-- C7 counterexample: frame `"0."` fails to parse and is buffered; the next
frame `"5"` is the remainder of the split document `"0.5"`, but since `"5"`
parses on its own the code discards the buffer and emits `5` — not the parse
of the concatenated document `"0.5"` (one half).  So the first half of the
claim fails as stated whenever the remainder alone is valid JSON. -/
theorem C7_counterexample :
    json_loads (pys "0.") = none ∧
    afterFirstFrame.partial_tweet = pys "0." ∧
    (effects_of (parse_json afterFirstFrame 4 (pys "5") 1)).filter effIsMessage
        = [Effect.messageCb (JsonVal.num 5)] ∧
    json_loads (pys "0.5") ≠ some (JsonVal.num 5) := by
  refine ⟨rfl, rfl, rfl, ?_⟩
  intro h
  have h1 : json_loads (pys "0.5")
      = some (JsonVal.num ((Nat.cast 0 : ℚ) + (Nat.cast 5 : ℚ) / 10 ^ 1)) := rfl
  rw [h1] at h
  injection h with h2
  injection h2 with h3
  norm_num at h3

/-- C7 amended: starting from an empty partial buffer, a frame that fails
JSON parsing followed by a frame holding the remainder of the split document
— provided the remainder alone is also not valid JSON, the case the code
actually reassembles — yields exactly one emitted message, the parse of the
concatenation, and clears the buffer; and whenever a frame's payload alone
parses successfully the pending buffer is discarded before the value is
emitted (the successful-parse branch sets `partial_tweet` to empty first,
see `C7_counterexample` for it winning over reassembly). -/
theorem C7_split_reassembly :
    ∀ (s : TweetState) (now1 now2 : ℤ) (f1 f2 : Str) (v : JsonVal),
      s.clean_message = false → s.has_callback = true →
      s.partial_tweet = ([] : List Char) →
      pyStrip f1 ≠ ([] : List Char) → pyStrip f2 ≠ ([] : List Char) →
      json_loads f1 = none → json_loads f2 = none →
      json_loads (f1 ++ f2) = some v →
      (effects_of (parse_json s now1 f1 s.current_iostream)).filter effIsMessage = [] ∧
      (state_of (parse_json s now1 f1 s.current_iostream) s).partial_tweet = f1 ∧
      (effects_of (parse_json (state_of (parse_json s now1 f1 s.current_iostream) s) now2 f2
          s.current_iostream)).filter effIsMessage = [Effect.messageCb v] ∧
      (state_of (parse_json (state_of (parse_json s now1 f1 s.current_iostream) s) now2 f2
          s.current_iostream) s).partial_tweet = [] := by
  intro s now1 now2 f1 f2 v hclean hcb hp hs1 hs2 hj1 hj2 hjv
  have hA := parse_json_buffers s s now1 f1 hs1 hj1 (by rw [hp]; simpa using hj1)
  set s1 := state_of (parse_json s now1 f1 s.current_iostream) s with hdef
  have hB := parse_json_completes s1 s now2 f2 v
    (by rw [hA.2.2.2.1, hclean]) (by rw [hA.2.2.2.2, hcb]) hs2 hj2
    (by rw [hA.2.1, hp]; simpa using hjv)
  rw [hA.2.2.1] at hB
  exact ⟨hA.1, by rw [hA.2.1, hp]; simp, hB.1, hB.2⟩

/-- C7 witness: the split document halves at concrete inputs, on the
established state. -/
theorem C7_split_reassembly_witness :
    (effects_of (parse_json streamingState 0 (pys "\x7b\x22a\x22:") 1)).filter effIsMessage
        = [] ∧
    (state_of (parse_json streamingState 0 (pys "\x7b\x22a\x22:") 1)
        streamingState).partial_tweet = pys "\x7b\x22a\x22:" ∧
    (effects_of (parse_json (state_of (parse_json streamingState 0 (pys "\x7b\x22a\x22:") 1)
        streamingState) 4 (pys "1\x7d") 1)).filter effIsMessage
        = [Effect.messageCb (JsonVal.obj [(pys "a", JsonVal.num 1)])] ∧
    (state_of (parse_json (state_of (parse_json streamingState 0 (pys "\x7b\x22a\x22:") 1)
        streamingState) 4 (pys "1\x7d") 1) streamingState).partial_tweet = [] := by
  have h := C7_split_reassembly streamingState 0 4 (pys "\x7b\x22a\x22:") (pys "1\x7d")
    (JsonVal.obj [(pys "a", JsonVal.num 1)]) rfl rfl rfl (by decide) (by decide) rfl rfl rfl
  exact h

/-- C8: the fatal status codes.  (1) On a current response whose status is
one of {401, 403, 404, 406, 413} with a nonzero `Content-Length`,
`on_headers` requests a read of exactly that many body bytes continuing into
the error-body callback, changes no state and schedules no retry; (2) with
content length absent or zero it reports through `on_error` at once, again
scheduling nothing; (3) the error-body callback hands the status line and
body to the registered error callback; (4) for every other status code the
result carries no error-callback invocation and no error-body read — the
five codes are the only ones surfaced as fatal by `on_headers`. -/
theorem C8_fatal_statuses :
    (∀ (s : TweetState) (now : ℤ) (newId : Nat) (resp : Str) (c n : Int),
      response_code_of resp = Except.ok c →
      c ∈ ([401, 403, 404, 406, 413] : List Int) →
      content_length_of resp = Except.ok n → n ≠ 0 →
      on_headers s now newId resp s.current_iostream =
        Except.ok (s, [Effect.readBytes n (Cont.errorBody (exc_string resp))])) ∧
    (∀ (s : TweetState) (now : ℤ) (newId : Nat) (resp : Str) (c : Int),
      response_code_of resp = Except.ok c →
      c ∈ ([401, 403, 404, 406, 413] : List Int) →
      content_length_of resp = Except.ok 0 →
      on_headers s now newId resp s.current_iostream =
        (on_error s (exc_string resp)).map (fun effs => (s, effs))) ∧
    (∀ (s : TweetState) (exc content : Str),
      s.has_error_callback = true →
      get_error_body s exc content =
        Except.ok [Effect.errorCb (exc ++ [Char.ofNat 10] ++ content)]) ∧
    (∀ (s : TweetState) (now : ℤ) (newId : Nat) (resp : Str) (c : Int)
        (st : TweetState) (effs : List Effect) (e : Str) (n : Int) (k : Cont),
      response_code_of resp = Except.ok c →
      c ∉ ([401, 403, 404, 406, 413] : List Int) →
      on_headers s now newId resp s.current_iostream = Except.ok (st, effs) →
      Effect.errorCb e ∉ effs ∧ Effect.readBytes n k ∉ effs) := by
  refine ⟨?_, ?_, ?_, ?_⟩
  · intro s now newId resp c n hcode hmem hcl hne
    simp only [List.mem_cons, List.not_mem_nil, or_false] at hmem
    unfold on_headers
    rw [if_neg (by simp), hcode]
    rcases hmem with rfl | rfl | rfl | rfl | rfl <;>
      · try dsimp only
        rw [hcl]
        simp [hne]
  · intro s now newId resp c hcode hmem hcl
    simp only [List.mem_cons, List.not_mem_nil, or_false] at hmem
    unfold on_headers
    rw [if_neg (by simp), hcode]
    rcases hmem with rfl | rfl | rfl | rfl | rfl <;>
      · try dsimp only
        rw [hcl]
        cases hec : s.has_error_callback <;> simp [on_error, hec, Except.map]
  · intro s exc content hec
    unfold get_error_body on_error
    rw [hec]
    rfl
  · intro s now newId resp c st effs e n k hcode hnot hok
    unfold on_headers at hok
    rw [if_neg (by simp), hcode] at hok
    try dsimp only at hok
    by_cases h200 : c = 200
    · subst h200
      rw [if_neg (by simp)] at hok
      injection hok with h2
      have h3 := congrArg Prod.snd h2
      unfold wait_for_message at h3
      split at h3 <;>
        · dsimp only at h3
          rw [← h3]
          simp
    · rw [if_pos h200] at hok
      by_cases h420 : c = 420
      · subst h420
        rw [if_pos rfl] at hok
        try dsimp only at hok
        split at hok <;>
          · injection hok with h2
            have h3 := congrArg Prod.snd h2
            dsimp only at h3
            rcases schedule_restart_effects
                { s with stream_restart_in_process := false } now newId
                s.retry_rate_limited_delay with hE | hE <;>
              · rw [← h3, hE]
                simp
      · rw [if_neg h420] at hok
        rw [if_pos (by simpa using hnot)] at hok
        try dsimp only at hok
        injection hok with h2
        have h3 := congrArg Prod.snd h2
        dsimp only at h3
        rcases schedule_restart_effects
            { s with stream_restart_in_process := false } now newId
            s.retry_delay with hE | hE <;>
          · rw [← h3, hE]
            simp

/-- C8 witness: a 404 with `Content-Length: 9` on the established state
reads exactly 9 body bytes into the error-body continuation and leaves the
state untouched. -/
theorem C8_fatal_statuses_witness :
    on_headers streamingState 400 2 resp404 1 =
      Except.ok (streamingState,
        [Effect.readBytes 9 (Cont.errorBody (exc_string resp404))]) :=
  C8_fatal_statuses.1 streamingState 400 2 resp404 404 9 rfl (by decide) rfl (by decide)

/-- C9 counterexample: a configuration whose consumer secret is present but
empty is accepted — construction succeeds and returns the initial state,
instead of failing with `InvalidCredentials` (no such error exists anywhere
in the code). -/
theorem C9_counterexample :
    TweetStream_init emptySecretConfig false = Except.ok (initState false) := rfl

/-- C9 amended: construction succeeds exactly when all four credentials are
present (empty strings included); a missing credential raises
`MissingConfiguration`, and those are the only two outcomes.  No emptiness
check and no `InvalidCredentials` error exist. -/
theorem C9_credentials :
    ∀ (c : Configuration) (clean : Bool),
      ((∃ s, TweetStream_init c clean = Except.ok s) ↔
        (c.twitter_consumer_key.isSome = true ∧
         c.twitter_consumer_secret.isSome = true ∧
         c.twitter_access_token.isSome = true ∧
         c.twitter_access_token_secret.isSome = true)) ∧
      ((∃ s, TweetStream_init c clean = Except.ok s) ∨
        TweetStream_init c clean = Except.error (pys "MissingConfiguration")) := by
  intro c clean
  rcases c with ⟨k, ks, t, ts, h, sc, p⟩
  rcases k with _ | k <;> rcases ks with _ | ks <;> rcases t with _ | t <;>
    rcases ts with _ | ts <;> rcases h with _ | h <;> rcases sc with _ | sc <;>
      rcases p with _ | p <;>
        simp [TweetStream_init, get_configuration_key, Except.ok.injEq]

/-- C9 witness: the amended statement applied at the full configuration. -/
theorem C9_credentials_witness :
    ∃ s, TweetStream_init fullConfig false = Except.ok s :=
  (C9_credentials fullConfig false).1.mpr ⟨rfl, rfl, rfl, rfl⟩

/-- C10: `on_error` raises the error (the `Except.error` branch, an uncaught
Python `raise`) exactly when no error callback is registered; with one
registered, the error goes to the callback and nothing is raised. -/
theorem C10_on_error :
    ∀ (s : TweetState) (e : Str),
      (s.has_error_callback = false → on_error s e = Except.error e) ∧
      (s.has_error_callback = true → on_error s e = Except.ok [Effect.errorCb e]) := by
  intro s e
  constructor <;> intro h <;> simp [on_error, h]

/-- C10 witness: both registration states at a concrete error. -/
theorem C10_on_error_witness :
    on_error noErrorCbState (pys "boom") = Except.error (pys "boom") ∧
    on_error streamingState (pys "boom") = Except.ok [Effect.errorCb (pys "boom")] :=
  ⟨(C10_on_error noErrorCbState (pys "boom")).1 rfl,
   (C10_on_error streamingState (pys "boom")).2 rfl⟩

end TS
